import Mathlib

/-!
Verification development for the grib-downloading-lab repository.

The Python sources (`grib_downloading_lab.py`, `download_partial_grib.py`,
`src/download_utils.py`) are shallowly embedded below.  Python exceptions are
modelled with `Except PyErr`; the local filesystem, the remote object store,
and the s5cmd collaborator are modelled by an explicit `World` state that is
threaded through every effectful operation.  The embedding follows
`grib_downloading_lab.py` (the later of the two near-identical scripts), with
`aws_cp` taken from `src/download_utils.py`, which is the version that file
imports.
-/

/-- Python exception values raised by the embedded code. -/
inductive PyErr : Type where
  /-- `TypeError`, e.g. `str.startswith` applied to an `int`,
      or `tuple` applied to two arguments. -/
  | typeError (msg : String)
  /-- `ValueError`, e.g. unpacking a short list, or a failed validation. -/
  | valueError (msg : String)
  /-- `RuntimeError` raised explicitly by `download_field`. -/
  | runtimeError (msg : String)
  /-- `KeyError` from a failed dict lookup. -/
  | keyError (msg : String)
  /-- `FileNotFoundError` from `open` on a missing path. -/
  | fileNotFoundError
  /-- Error raised by `exec_cmd` when the spawned command itself fails. -/
  | calledProcessError
  /-- `IndexError` from an out-of-bounds sequence index. -/
  | indexError
deriving DecidableEq

/-- A Python value that is either an `int` or a `str`; the type of
`target_level` / `target_time_length` in `_is_line_matching_field`, which are
the raw `int` from the field table when present and `''` otherwise. -/
inductive PyVal : Type where
  | int (i : Int)
  | str (s : String)
deriving DecidableEq

instance {ε α : Type} [DecidableEq ε] [DecidableEq α] : DecidableEq (Except ε α) :=
  fun x y =>
    match x, y with
    | Except.ok a, Except.ok b =>
      match decEq a b with
      | isTrue h => isTrue (by rw [h])
      | isFalse h => isFalse (by intro hh; cases hh; exact h rfl)
    | Except.ok _, Except.error _ => isFalse (by intro hh; cases hh)
    | Except.error _, Except.ok _ => isFalse (by intro hh; cases hh)
    | Except.error e, Except.error f =>
      match decEq e f with
      | isTrue h => isTrue (by rw [h])
      | isFalse h => isFalse (by intro hh; cases hh; exact h rfl)

/-- A timezone-free datetime, the relevant projection of Python's `datetime`
(year, month, day, hour, minute, second). -/
structure Datetime : Type where
  year : Nat
  month : Nat
  day : Nat
  hour : Nat
  minute : Nat
  second : Nat
deriving DecidableEq

/-- Zero-pad a natural number to 2 digits (Python `:02d`). -/
def pad2 (n : Nat) : String :=
  if n < 10 then "0" ++ toString n else toString n

/-- Zero-pad a natural number to 3 digits (Python `:03d`). -/
def pad3 (n : Nat) : String :=
  if n < 10 then "00" ++ toString n
  else if n < 100 then "0" ++ toString n
  else toString n

/-- Zero-pad a natural number to 4 digits (Python `:04d`). -/
def pad4 (n : Nat) : String :=
  if n < 10 then "000" ++ toString n
  else if n < 100 then "00" ++ toString n
  else if n < 1000 then "0" ++ toString n
  else toString n

/-- Days since 1970-01-01 of a proleptic-Gregorian civil date (the standard
`days_from_civil` integer algorithm); used to compute the lead duration
`valid - issue` in whole hours. -/
def days_from_civil (y m d : Int) : Int :=
  let yy := if m ≤ 2 then y - 1 else y
  let era := (if 0 ≤ yy then yy else yy - 399) / 400
  let yoe := yy - era * 400
  let mp := (m + 9) % 12
  let doy := (153 * mp + 2) / 5 + d - 1
  let doe := yoe * 365 + yoe / 4 - yoe / 100 + doy
  era * 146097 + doe - 719468

/-- Hours since the epoch of a `Datetime` (minutes and seconds ignored, as only
whole-hour leads occur in the path templates). -/
def epoch_hours (dt : Datetime) : Int :=
  days_from_civil dt.year dt.month dt.day * 24 + dt.hour

/-- Modelled from the spec: the lead duration is `valid - issue`, rendered in
whole hours (spec sections 3 and 4.2); the actual subtraction is performed by
the external `datetime` arithmetic inside the `idsse` `PathBuilder`. -/
def lead_hours (issue valid : Datetime) : Nat :=
  (epoch_hours valid - epoch_hours issue).toNat

/-- Modelled from the spec: `to_compact` comes from the external
`idsse.common.utils` library, which is not part of this repository; per spec
sections 4.2 and 8 it renders a timestamp in the compact, lexically sortable
form `YYYYMMDDThhmmssZ` (example from the spec: `20240905T120000Z`). -/
def to_compact (dt : Datetime) : String :=
  pad4 dt.year ++ pad2 dt.month ++ pad2 dt.day ++ "T" ++
    pad2 dt.hour ++ pad2 dt.minute ++ pad2 dt.second ++ "Z"

/-- One entry of `PRODUCTS['NBM']['field_lookup']`.  Optional keys absent from
a given dict entry are `none`. -/
structure FieldCriteria : Type where
  abbrevName : String
  level : Option Int := none
  lengthOfTimeRange : Option Int := none
  productDefinitionTemplateNumber : Option Int := none
  typeOfLevel : Option String := none
deriving DecidableEq

/-- `PRODUCTS['NBM']['field_lookup']` from `grib_downloading_lab.py`
(identical in `download_partial_grib.py`).  Commented-out dict keys in the
source are omitted, exactly as Python sees them. -/
def field_lookup : String → Option FieldCriteria
  | "RAIN1HR" => some { abbrevName := "APCP", productDefinitionTemplateNumber := some 8,
                        lengthOfTimeRange := some 1 }
  | "RAIN6HR" => some { abbrevName := "APCP", productDefinitionTemplateNumber := some 8,
                        lengthOfTimeRange := some 6 }
  | "ICE1HR" => some { abbrevName := "FICEAC", lengthOfTimeRange := some 1 }
  | "SNOW1HR" => some { abbrevName := "ASNOW", productDefinitionTemplateNumber := some 8,
                        lengthOfTimeRange := some 1 }
  | "TEMP" => some { abbrevName := "TMP", level := some 2,
                     productDefinitionTemplateNumber := some 0 }
  | "APPTEMP" => some { abbrevName := "APTMP", level := some 2,
                        productDefinitionTemplateNumber := some 0 }
  | "RH" => some { abbrevName := "RH", level := some 2,
                   productDefinitionTemplateNumber := some 0 }
  | "DEWPOINT" => some { abbrevName := "DPT", level := some 2,
                         productDefinitionTemplateNumber := some 0 }
  | "WINDSPEED" => some { abbrevName := "WIND", level := some 10,
                          productDefinitionTemplateNumber := some 0 }
  | "WINDGUST" => some { abbrevName := "GUST", level := some 10,
                         productDefinitionTemplateNumber := some 0 }
  | "CEILING" => some { abbrevName := "CEIL", typeOfLevel := some "cloudBase" }
  | "VISIBILITY" => some { abbrevName := "VIS" }
  | "MAXREF" => some { abbrevName := "MAXREF", level := some 1000 }
  | "VIL" => some { abbrevName := "VIL" }
  | "ECHOTOP" => some { abbrevName := "RETOP" }
  | "WAVEHEIGHT" => some { abbrevName := "HTSGW",
                           productDefinitionTemplateNumber := some 0 }
  | "PROBTHDR1HR" => some { abbrevName := "TSTM", lengthOfTimeRange := some 1 }
  | "PROBTHDR3HR" => some { abbrevName := "TSTM", lengthOfTimeRange := some 3 }
  | "PROBTHDR6HR" => some { abbrevName := "TSTM", lengthOfTimeRange := some 6 }
  | _ => none

/-- `PRODUCTS['NBM']['basedir']`. -/
def NBM_basedir : String := "s3://noaa-nbm-grib2-pds"

/-- `PRODUCTS['NBM']['file_ext']`. -/
def NBM_file_ext : String := ".grib2"

/-- `PRODUCTS['NBM']['regions']`. -/
def nbm_regions : List String := ["CO", "HI", "PR", "GU", "AK"]

/-- Python `s.split(sep)` for a one-character separator, written on the
character list so that it evaluates inside the kernel.  As in Python,
`''.split(':') = ['']` and a trailing separator yields a trailing `''`. -/
def py_split_go (sep : Char) : List Char → List Char → List String
  | [], acc => [String.mk acc.reverse]
  | c :: rest, acc =>
    if c == sep then String.mk acc.reverse :: py_split_go sep rest []
    else py_split_go sep rest (c :: acc)

/-- Python `s.split(':')`. -/
def py_split (s : String) : List String :=
  py_split_go ':' s.data []

/-- Python `s.startswith(x)`.  When `x` is a `str` this is the prefix test;
when `x` is an `int` CPython raises
`TypeError: startswith first arg must be str or a tuple of str, not int`. -/
def py_startswith (s : String) (x : PyVal) : Except PyErr Bool :=
  match x with
  | PyVal.str p => Except.ok (p.data.isPrefixOf s.data)
  | PyVal.int _ =>
      Except.error (PyErr.typeError "startswith first arg must be str or a tuple of str, not int")

/-- `Reader._is_line_matching_field` (grib_downloading_lab.py lines 264-290).
Splits the line on `:`, keeps the first 7 columns (raising `ValueError` on a
shorter line, as the Python 7-name tuple unpacking does), then evaluates
`abbrevName == var_name and level.startswith(target_level) and
time_length.startswith(target_time_length) and math_params == ''` with
Python's left-to-right short-circuit order.  `target_level` and
`target_time_length` are the raw dict values: an `int` when the key is
present, `''` otherwise. -/
def is_line_matching_field (field : String) (index_line : String) : Except PyErr Bool :=
  match field_lookup field with
  | none => Except.error (PyErr.keyError field)
  | some field_args =>
    let cols := (py_split index_line).take 7
    if cols.length < 7 then
      Except.error (PyErr.valueError "not enough values to unpack")
    else
      let var_name := cols.getD 3 ""
      let level := cols.getD 4 ""
      let time_length := cols.getD 5 ""
      let math_params := cols.getD 6 ""
      let target_level : PyVal :=
        match field_args.level with
        | some i => PyVal.int i
        | none => PyVal.str ""
      let target_time_length : PyVal :=
        match field_args.lengthOfTimeRange with
        | some i => PyVal.int i
        | none => PyVal.str ""
      if field_args.abbrevName ≠ var_name then Except.ok false
      else
        match py_startswith level target_level with
        | Except.error e => Except.error e
        | Except.ok false => Except.ok false
        | Except.ok true =>
          match py_startswith time_length target_time_length with
          | Except.error e => Except.error e
          | Except.ok false => Except.ok false
          | Except.ok true => Except.ok (math_params == "")

/-- Python sequence indexing `l[i]`, raising `IndexError` out of bounds. -/
def py_get (l : List String) (i : Nat) : Except PyErr String :=
  match l[i]? with
  | some s => Except.ok s
  | none => Except.error PyErr.indexError

/-- Python `tuple(s)` on a `str`: the tuple of its one-character strings. -/
def py_tuple_of_string (s : String) : List String :=
  s.data.map (fun c => String.mk [c])

/-- Python `f.readlines()` applied to a file whose content is `s`: the lines
of `s`, each keeping its trailing newline. -/
def readlines_go : List Char → List Char → List String
  | [], [] => []
  | [], acc => [String.mk acc.reverse]
  | c :: rest, acc =>
    if c == '\n' then String.mk (acc.reverse ++ [c]) :: readlines_go rest []
    else readlines_go rest (c :: acc)

/-- Python `f.readlines()` on content `s`. -/
def readlines (s : String) : List String :=
  readlines_go s.data []

/-- The `for n, line in enumerate(file_lines, start=1)` loop body of
`Reader._get_byterange_from_index` (grib_downloading_lab.py lines 303-315).
`file_lines` is the full list (needed for `file_lines[n]`), `total` its
length, `n` the 1-based position of the head of the remaining list.
On a match: `starting_byte = line.split(':')[1]`; if the match is the last
line the code returns `tuple(starting_byte)` (a tuple of the offset's digit
characters); otherwise it evaluates `file_lines[n].split(':')[1]` and then
calls `tuple(starting_byte, ending_byte)`, which raises
`TypeError: tuple expected at most 1 argument, got 2`. -/
def byterange_go (field : String) (file_lines : List String) (total : Nat) :
    Nat → List String → Except PyErr (Option (List String))
  | _, [] => Except.ok none
  | n, line :: rest =>
    match is_line_matching_field field line with
    | Except.error e => Except.error e
    | Except.ok false => byterange_go field file_lines total (n + 1) rest
    | Except.ok true =>
      match py_get (py_split line) 1 with
      | Except.error e => Except.error e
      | Except.ok starting_byte =>
        if total < n + 1 then Except.ok (some (py_tuple_of_string starting_byte))
        else
          match py_get file_lines n with
          | Except.error e => Except.error e
          | Except.ok next_line =>
            match py_get (py_split next_line) 1 with
            | Except.error e => Except.error e
            | Except.ok _ending_byte =>
              Except.error (PyErr.typeError "tuple expected at most 1 argument, got 2")

/-- The record-scanning loop of `Reader._get_byterange_from_index` applied to
the list of lines read from the index file. -/
def byterange_loop (field : String) (file_lines : List String) :
    Except PyErr (Option (List String)) :=
  byterange_go field file_lines file_lines.length 1 file_lines

-- Sanity examples (concrete evaluations of the matcher and the loop).
example : is_line_matching_field "VISIBILITY" "1:0:d=2024:VIS:surface:1 hour fcst:" =
    Except.ok true := by decide

example : is_line_matching_field "VISIBILITY" "1:0:d=2024:VIS:surface:1 hour fcst:extra" =
    Except.ok false := by decide

example : byterange_loop "VISIBILITY" ["1:500:d=2024:VIS:surface:1 hour fcst:"] =
    Except.ok (some ["5", "0", "0"]) := by decide

/-- Outcome of one `exec_cmd` invocation of the external `s5cmd` tool:
the command succeeds, the tool is not installed (Python raises
`FileNotFoundError` when spawning it), or the spawned command itself fails
(network/permission error; `exec_cmd` raises). -/
inductive ExecOutcome : Type where
  | ok
  | toolMissing
  | cmdFailed
deriving DecidableEq

/-- The effectful environment threaded through the embedded code: the local
filesystem (`fs`, an association list from path to file content), the remote
object store (`remote`, an association list from URI to object content), the
fixed outcome of spawning `s5cmd`, and a counter of collaborator copy
invocations. -/
structure World : Type where
  fs : List (String × String)
  remote : List (String × String)
  exec : ExecOutcome
  cpCalls : Nat
deriving DecidableEq

/-- `os.path.exists` / `os.path.isfile` on the modelled filesystem. -/
def pathExists (w : World) (p : String) : Bool :=
  w.fs.any (fun e => e.fst == p)

/-- Read the content of a file on the modelled filesystem. -/
def fsRead (fs : List (String × String)) (p : String) : Option String :=
  (fs.find? (fun e => e.fst == p)).map (fun e => e.snd)

/-- Content the object store serves for a URI (empty object if absent). -/
def World.remoteGet (w : World) (path : String) : String :=
  ((w.remote.find? (fun e => e.fst == path)).map (fun e => e.snd)).getD ""

/-- `aws_cp` from `src/download_utils.py` (lines 48-96), the version imported
by `grib_downloading_lab.py`.  It builds an `s5cmd ... cp path dest` command;
the `byte_range` argument is accepted but never forwarded (the range-passing
code is commented out because s5cmd does not support ranges).  `exec_cmd` is
run inside `try`: a `FileNotFoundError` (tool not installed) is caught, logged
and turned into `return False`; any other `exec_cmd` failure propagates.  On
success the object is written to `dest` and the function returns `True`. -/
def aws_cp (w : World) (path dest : String) (_byte_range : Option (List String)) :
    (Except PyErr Bool) × World :=
  let w1 : World := { w with cpCalls := w.cpCalls + 1 }
  match w1.exec with
  | ExecOutcome.ok =>
      (Except.ok true, { w1 with fs := (dest, w1.remoteGet path) :: w1.fs })
  | ExecOutcome.toolMissing => (Except.ok false, w1)
  | ExecOutcome.cmdFailed => (Except.error PyErr.calledProcessError, w1)

/-- `Reader._download_file` (grib_downloading_lab.py lines 340-346): if `dest`
already exists it is returned immediately; otherwise `aws_cp` is invoked and
its boolean result is discarded, `dest` being returned regardless. -/
def download_file (w : World) (src dest : String) (byte_range : Option (List String)) :
    (Except PyErr String) × World :=
  if pathExists w dest then (Except.ok dest, w)
  else
    match aws_cp w src dest byte_range with
    | (Except.error e, w') => (Except.error e, w')
    | (Except.ok _, w') => (Except.ok dest, w')

/-- The mutable state of a `Reader` (grib_downloading_lab.py): the product
name, the stored (lowercased) region, the destination file extension
`_file_ext`, and the `PathBuilder`'s source file extension
`_path_builder.file_ext`. -/
structure Reader : Type where
  product_name : String
  region : String
  file_ext : String
  pb_file_ext : String
deriving DecidableEq

/-- `Reader.set_region` (lines 171-179): validates the region against the
product's region list (raising `ValueError` otherwise, leaving the reader
unchanged), then stores the lowercased region and sets both file extensions to
`'.' + region.lower() + '.grib2'`. -/
def Reader.set_region (r : Reader) (region : String) : (Except PyErr Unit) × Reader :=
  if nbm_regions.contains region then
    let lower := String.mk (region.data.map Char.toLower)
    (Except.ok (),
     { r with region := lower,
              file_ext := "." ++ lower ++ NBM_file_ext,
              pb_file_ext := "." ++ lower ++ NBM_file_ext })
  else
    (Except.error
      (PyErr.valueError ("Region " ++ region ++ " not one of the regions for this AWS product")), r)

/-- `Reader.__init__` (lines 151-165): validates the product name, builds the
`PathBuilder` with the product's default extension, then calls `set_region`. -/
def Reader.init (product region : String) : Except PyErr Reader :=
  if product == "NBM" then
    let r0 : Reader := { product_name := product, region := "",
                         file_ext := NBM_file_ext, pb_file_ext := NBM_file_ext }
    match r0.set_region region with
    | (Except.ok _, r) => Except.ok r
    | (Except.error e, _) => Except.error e
  else
    Except.error
      (PyErr.valueError ("Product " ++ product ++ " not one of supported AWS weather products"))

/-- The string computed by `Reader.get_local_filename` (lines 238-245):
`'{product}_{to_compact(issue)}_{to_compact(valid)}'`, then `'_{field}'` when
a (truthy) field was passed, then `self._file_ext`. -/
def local_filename_str (pname ext : String) (issue valid : Datetime)
    (field : Option String) : String :=
  let base := pname ++ "_" ++ to_compact issue ++ "_" ++ to_compact valid
  let withField :=
    match field with
    | some f => if f == "" then base else base ++ "_" ++ f
    | none => base
  withField ++ ext

/-- Modelled from the spec: `PathBuilder.build_path` comes from the external
`idsse.common.path_builder` library, not this repository.  Per spec section
4.2 it substitutes the zero-padded issuance calendar components into the
`subdir` template `'blend.YYYYMMDD/HH/core/'`, the issuance hour and the
zero-padded lead-duration hours into the `file_base` template
`'blend.tHHz.core.fLLL'` (templates from `PRODUCTS['NBM']`), and appends the
currently configured file extension to form the full S3 URI. -/
def build_path (ext : String) (issue valid : Datetime) : String :=
  NBM_basedir ++ "/" ++
    "blend." ++ pad4 issue.year ++ pad2 issue.month ++ pad2 issue.day ++ "/" ++
    pad2 issue.hour ++ "/core/" ++
    "blend.t" ++ pad2 issue.hour ++ "z.core.f" ++ pad3 (lead_hours issue valid) ++ ext

/-- `Reader.get_local_filename` (lines 217-245).  A truthy `region` argument
different from the stored region calls `set_region` first (mutating the
reader); an exception from `set_region` propagates with the reader unchanged. -/
def Reader.get_local_filename (r : Reader) (issue valid : Datetime)
    (region : Option String) (field : Option String) : (Except PyErr String) × Reader :=
  match region with
  | none => (Except.ok (local_filename_str r.product_name r.file_ext issue valid field), r)
  | some rg =>
    if rg != "" && rg != r.region then
      match r.set_region rg with
      | (Except.error e, r') => (Except.error e, r')
      | (Except.ok _, r') =>
        (Except.ok (local_filename_str r'.product_name r'.file_ext issue valid field), r')
    else (Except.ok (local_filename_str r.product_name r.file_ext issue valid field), r)

/-- `Reader.get_source_path` (lines 247-262), with the same region-override
behaviour; delegates to `PathBuilder.build_path` with the current source
extension. -/
def Reader.get_source_path (r : Reader) (issue valid : Datetime)
    (region : Option String) : (Except PyErr String) × Reader :=
  match region with
  | none => (Except.ok (build_path r.pb_file_ext issue valid), r)
  | some rg =>
    if rg != "" && rg != r.region then
      match r.set_region rg with
      | (Except.error e, r') => (Except.error e, r')
      | (Except.ok _, r') => (Except.ok (build_path r'.pb_file_ext issue valid), r')
    else (Except.ok (build_path r.pb_file_ext issue valid), r)

/-- `os.path.join` for the shapes occurring here. -/
def os_path_join (a b : String) : String :=
  if a == "" then b
  else if a.data.getLast? == some '/' then a ++ b
  else a ++ "/" ++ b

/-- `Reader._download_index_file` (lines 317-338): saves both file extensions,
appends `'.idx'` to both, builds the local and S3 index paths, downloads via
`_download_file` inside `try`, restores both extensions in the `finally`
block (on normal return and on exception alike), then returns the path if
`os.path.isfile` confirms it, else `None`. -/
def Reader.download_index_file (r : Reader) (w : World) (issue valid : Datetime)
    (dest_dir : String) : (Except PyErr (Option String)) × Reader × World :=
  let original_config_ext := r.file_ext
  let original_pb_ext := r.pb_file_ext
  let r1 : Reader := { r with file_ext := r.file_ext ++ ".idx",
                              pb_file_ext := r.pb_file_ext ++ ".idx" }
  match r1.get_local_filename issue valid none none with
  | (Except.error e, r2) => (Except.error e, r2, w)
  | (Except.ok name, r2) =>
    let index_dest_path := os_path_join dest_dir name
    match r2.get_source_path issue valid none with
    | (Except.error e, r3) => (Except.error e, r3, w)
    | (Except.ok index_src_path, r3) =>
      match download_file w index_src_path index_dest_path none with
      | (Except.error e, w') =>
        (Except.error e,
         { r3 with file_ext := original_config_ext, pb_file_ext := original_pb_ext }, w')
      | (Except.ok index_file_path, w') =>
        let r4 : Reader := { r3 with file_ext := original_config_ext,
                                     pb_file_ext := original_pb_ext }
        if pathExists w' index_file_path then (Except.ok (some index_file_path), r4, w')
        else (Except.ok none, r4, w')

/-- `Reader._get_byterange_from_index` (lines 292-315): opens and reads the
index file (raising `FileNotFoundError` when it does not exist), then runs the
matching loop over its lines. -/
def get_byterange_from_index (w : World) (filepath field : String) :
    Except PyErr (Option (List String)) :=
  match fsRead w.fs filepath with
  | none => Except.error PyErr.fileNotFoundError
  | some content => byterange_loop field (readlines content)

/-- `Reader.download_field` (lines 181-215).  Issue/valid datetimes are taken
already parsed (`dateutil.parser.parse` is external).  The unknown-field
`ValueError` message is modelled up to the constant dict repr that the source
interpolates after the field name.  A `None` index path flows into `open`,
raising `TypeError`; a falsy byte range (either `None` or the empty tuple)
raises the `RuntimeError` of line 203 verbatim. -/
def Reader.download_field (r : Reader) (w : World) (issue valid : Datetime)
    (field dest_dir : String) : (Except PyErr String) × Reader × World :=
  match field_lookup field with
  | none =>
    (Except.error (PyErr.valueError ("Field " ++ field ++ " not recognized for product NBM")),
     r, w)
  | some _ =>
    match r.download_index_file w issue valid dest_dir with
    | (Except.error e, r1, w1) => (Except.error e, r1, w1)
    | (Except.ok none, r1, w1) =>
      (Except.error (PyErr.typeError "expected str, bytes or os.PathLike object, not NoneType"),
       r1, w1)
    | (Except.ok (some index_filepath), r1, w1) =>
      match get_byterange_from_index w1 index_filepath field with
      | Except.error e => (Except.error e, r1, w1)
      | Except.ok none =>
        (Except.error
          (PyErr.runtimeError ("Cannot find field " ++ field ++ " in index file at " ++
            index_filepath)), r1, w1)
      | Except.ok (some byte_range) =>
        if byte_range = [] then
          (Except.error
            (PyErr.runtimeError ("Cannot find field " ++ field ++ " in index file at " ++
              index_filepath)), r1, w1)
        else
          match r1.get_source_path issue valid none with
          | (Except.error e, r2) => (Except.error e, r2, w1)
          | (Except.ok s3_path, r2) =>
            match r2.get_local_filename issue valid none (some field) with
            | (Except.error e, r3) => (Except.error e, r3, w1)
            | (Except.ok dest_filepath, r3) =>
              let dest_path := os_path_join dest_dir dest_filepath
              match download_file w1 s3_path dest_path (some byte_range) with
              | (Except.error e, w2) => (Except.error e, r3, w2)
              | (Except.ok p, w2) => (Except.ok p, r3, w2)

/-- The local path `_download_index_file` computes for the index file. -/
def idx_dest_path (r : Reader) (issue valid : Datetime) (dest_dir : String) : String :=
  os_path_join dest_dir
    (local_filename_str r.product_name (r.file_ext ++ ".idx") issue valid none)

-- Concrete fixtures used by several witnesses below.

/-- The reader obtained from `Reader('NBM', 'CO')`. -/
def readerCO : Reader :=
  { product_name := "NBM", region := "co", file_ext := ".co.grib2", pb_file_ext := ".co.grib2" }

/-- Issuance datetime 2024-09-05T12:00:00Z. -/
def issue0 : Datetime := { year := 2024, month := 9, day := 5, hour := 12, minute := 0, second := 0 }

/-- Valid datetime 2024-09-05T13:00:00Z. -/
def valid0 : Datetime := { year := 2024, month := 9, day := 5, hour := 13, minute := 0, second := 0 }

example : Reader.init "NBM" "CO" = Except.ok readerCO := by decide
example : to_compact issue0 = "20240905T120000Z" := by decide
example : lead_hours issue0 valid0 = 1 := by decide

/-! ## Helper lemmas -/

lemma is_line_short (field short : String)
    (hfa : (field_lookup field).isSome = true)
    (hshort : (py_split short).length < 7) :
    is_line_matching_field field short =
      Except.error (PyErr.valueError "not enough values to unpack") := by
  obtain ⟨fa, h⟩ := Option.isSome_iff_exists.mp hfa
  have hlen : ((py_split short).take 7).length < 7 := by
    simp only [List.length_take]
    omega
  unfold is_line_matching_field
  simp only [h]
  rw [if_pos hlen]

lemma byterange_go_cons_false (field l : String) (all : List String) (total n : Nat)
    (rest : List String) (h : is_line_matching_field field l = Except.ok false) :
    byterange_go field all total n (l :: rest) = byterange_go field all total (n + 1) rest := by
  conv_lhs => rw [byterange_go]
  rw [h]

lemma byterange_go_cons_err (field l : String) (all : List String) (total n : Nat)
    (rest : List String) (e : PyErr) (h : is_line_matching_field field l = Except.error e) :
    byterange_go field all total n (l :: rest) = Except.error e := by
  conv_lhs => rw [byterange_go]
  rw [h]

lemma byterange_go_short (field short : String) (all : List String) (total : Nat)
    (pre rest : List String) (n : Nat)
    (hfa : (field_lookup field).isSome = true)
    (hpre : ∀ l ∈ pre, is_line_matching_field field l = Except.ok false)
    (hshort : (py_split short).length < 7) :
    byterange_go field all total n (pre ++ short :: rest) =
      Except.error (PyErr.valueError "not enough values to unpack") := by
  induction pre generalizing n with
  | nil =>
    simpa using
      byterange_go_cons_err field short all total n rest _ (is_line_short field short hfa hshort)
  | cons l pre ih =>
    rw [List.cons_append, byterange_go_cons_false field l all total n _ (hpre l (by simp))]
    exact ih (n + 1) (fun x hx => hpre x (List.mem_cons_of_mem _ hx))

lemma download_file_cached (w : World) (src dest : String) (br : Option (List String))
    (h : pathExists w dest = true) :
    download_file w src dest br = (Except.ok dest, w) := by
  unfold download_file
  simp [h]

lemma download_file_ok_fs (w : World) (src dest : String) (br : Option (List String))
    (q : String) (w' : World) (h : download_file w src dest br = (Except.ok q, w')) :
    q = dest ∧
      (w'.fs = w.fs ∨ (pathExists w dest = false ∧ ∃ z, w'.fs = (dest, z) :: w.fs)) := by
  unfold download_file at h
  by_cases hc : pathExists w dest
  · simp only [hc, if_true, Prod.mk.injEq, Except.ok.injEq] at h
    obtain ⟨h1, h2⟩ := h
    exact ⟨h1.symm, Or.inl (by rw [← h2])⟩
  · simp only [hc, if_false, Bool.false_eq_true] at h
    unfold aws_cp at h
    rcases hexec : w.exec with _ | _ | _
    · simp only [hexec, Prod.mk.injEq, Except.ok.injEq] at h
      obtain ⟨h1, h2⟩ := h
      refine ⟨h1.symm, Or.inr ⟨by simpa using hc, w.remoteGet src, ?_⟩⟩
      rw [← h2]
      rfl
    · simp only [hexec, Prod.mk.injEq, Except.ok.injEq] at h
      obtain ⟨h1, h2⟩ := h
      refine ⟨h1.symm, Or.inl ?_⟩
      rw [← h2]
    · simp [hexec] at h

lemma fsRead_cons_ne (fs : List (String × String)) (k z p : String) (h : k ≠ p) :
    fsRead ((k, z) :: fs) p = fsRead fs p := by
  unfold fsRead
  rw [List.find?_cons_of_neg]
  simpa using h

lemma pathExists_cons (w : World) (fs : List (String × String)) (k z p : String)
    (hfs : w.fs = (k, z) :: fs) (h : fs.any (fun e => e.fst == p) = true) :
    pathExists w p = true := by
  unfold pathExists
  rw [hfs]
  simp [h]

lemma download_index_cached (r : Reader) (w : World) (issue valid : Datetime) (d : String)
    (h : pathExists w (idx_dest_path r issue valid d) = true) :
    r.download_index_file w issue valid d =
      (Except.ok (some (idx_dest_path r issue valid d)), r, w) := by
  unfold idx_dest_path at h ⊢
  unfold Reader.download_index_file
  simp only [Reader.get_local_filename, Reader.get_source_path]
  rw [download_file_cached _ _ _ _ h]
  simp [h]

lemma aws_cp_tool_missing (w : World) (src dest : String) (br : Option (List String))
    (hexec : w.exec = ExecOutcome.toolMissing) :
    aws_cp w src dest br = (Except.ok false, { w with cpCalls := w.cpCalls + 1 }) := by
  unfold aws_cp
  simp only [hexec]

lemma download_index_ok_some (r : Reader) (w : World) (issue valid : Datetime) (d p : String)
    (r' : Reader) (w' : World)
    (h : r.download_index_file w issue valid d = (Except.ok (some p), r', w')) :
    p = idx_dest_path r issue valid d ∧ r' = r ∧ pathExists w' p = true ∧
      (w'.fs = w.fs ∨ (pathExists w p = false ∧ ∃ z, w'.fs = (p, z) :: w.fs)) := by
  unfold Reader.download_index_file at h
  simp only [Reader.get_local_filename, Reader.get_source_path] at h
  rcases hdf : download_file w (build_path (r.pb_file_ext ++ ".idx") issue valid)
      (os_path_join d (local_filename_str r.product_name (r.file_ext ++ ".idx")
        issue valid none)) none with ⟨res, wA⟩
  rw [hdf] at h
  cases res with
  | error e => simp at h
  | ok q =>
    by_cases hq : pathExists wA q
    · simp only [hq, if_true, Prod.mk.injEq, Except.ok.injEq, Option.some.injEq] at h
      obtain ⟨hqp, hr, hw⟩ := h
      obtain ⟨hqd, hfs⟩ := download_file_ok_fs _ _ _ _ _ _ hdf
      subst hqp
      subst hw
      subst hqd
      refine ⟨by unfold idx_dest_path; rfl, ?_, hq, hfs⟩
      rw [← hr]
    · simp [hq] at h


/-! ## Claim theorems -/

/-- C1 (code bug): the field-matching predicate does not implement the
claimed semantics.  For catalog field TEMP (whose `level` criterion is the
int 2) and an index record with matching abbreviation `TMP`, level column
starting with `"2"`, time-range column, and an empty statistical-processing
column — a record the claim says must match — the code raises `TypeError`,
because it passes the raw int from the field table to `str.startswith`
instead of its string form. -/
theorem c1_matcher_raises_typeerror_on_int_level :
    field_lookup "TEMP" = some { abbrevName := "TMP", level := some 2,
                                 productDefinitionTemplateNumber := some 0 } ∧
    is_line_matching_field "TEMP"
        "32:3866677:d=2024090523:TMP:2 m above ground:2 hour fcst:" =
      Except.error
        (PyErr.typeError "startswith first arg must be str or a tuple of str, not int") :=
  ⟨by decide, by decide⟩

/-- C2 (code bug): byte-range resolution does not return the claimed integer
offsets.  When the matched record (here for field VISIBILITY) is followed by
another record, the code raises `TypeError` because `tuple` is called with two
arguments; when the matched record is the last line, it returns the tuple of
the offset string's digit characters instead of a parsed integer start with
an unbounded-end marker. -/
theorem c2_byterange_typeerror_and_char_tuple :
    byterange_loop "VISIBILITY"
        ["1:0:d=2024090512:VIS:surface:1 hour fcst::extra\n",
         "2:500:d=2024090512:TMP:2 m above ground:1 hour fcst:\n"] =
      Except.error (PyErr.typeError "tuple expected at most 1 argument, got 2") ∧
    byterange_loop "VISIBILITY" ["1:500:d=2024090512:VIS:surface:1 hour fcst:"] =
      Except.ok (some ["5", "0", "0"]) :=
  ⟨by decide, by decide⟩

/-- C3 (counterexample): an index file whose first line has fewer than 7
colon-delimited columns makes the scan raise `ValueError` (from the 7-name
tuple unpacking) instead of skipping the line, so the later well-formed
matching line is not found and the operation raises — refuting the claim that
short lines are skipped rather than failing the parse. -/
theorem c3_counterexample :
    byterange_loop "VISIBILITY"
        ["bad line\n", "1:0:d=2024090512:VIS:surface:1 hour fcst:"] =
      Except.error (PyErr.valueError "not enough values to unpack") := by decide

/-- C3 (amended): lines are processed in file order and split on `:` with
only the first 7 columns significant (extra columns are ignored by the
matcher); but a line with fewer than 7 columns makes the scan raise a
`ValueError` instead of being skipped, so a matching line after it is never
reached. -/
theorem c3_amended :
    (∀ (field l1 l2 : String), (py_split l1).take 7 = (py_split l2).take 7 →
        is_line_matching_field field l1 = is_line_matching_field field l2) ∧
    (∀ (field short : String) (pre rest : List String),
        (field_lookup field).isSome = true →
        (∀ l ∈ pre, is_line_matching_field field l = Except.ok false) →
        (py_split short).length < 7 →
        byterange_loop field (pre ++ short :: rest) =
          Except.error (PyErr.valueError "not enough values to unpack")) := by
  constructor
  · intro field l1 l2 hsplit
    unfold is_line_matching_field
    rw [hsplit]
  · intro field short pre rest hfa hpre hshort
    unfold byterange_loop
    exact byterange_go_short field short _ _ pre rest 1 hfa hpre hshort

/-- Witness for C3 (amended) at concrete inputs. -/
theorem c3_amended_witness :
    is_line_matching_field "VISIBILITY" "a:b:c:d:e:f:g:h" =
        is_line_matching_field "VISIBILITY" "a:b:c:d:e:f:g:zz" ∧
    byterange_loop "VISIBILITY" (["1:1:d:TMP:a:b:c"] ++ "bad" :: []) =
      Except.error (PyErr.valueError "not enough values to unpack") :=
  ⟨c3_amended.1 "VISIBILITY" "a:b:c:d:e:f:g:h" "a:b:c:d:e:f:g:zz" (by decide),
   c3_amended.2 "VISIBILITY" "bad" ["1:1:d:TMP:a:b:c"] [] (by decide)
     (by
       intro l hl
       simp only [List.mem_singleton] at hl
       subst hl
       decide)
     (by decide)⟩

/-- C4 (code bug): a failed collaborator copy is not surfaced.  When the
s5cmd tool is missing, `aws_cp` catches the `FileNotFoundError` and returns
`False`; `_download_file` discards that boolean and still returns the
destination path as if the download succeeded — no `TransferError` carrying
source, destination and range ever reaches the caller. -/
theorem c4_transfer_failure_swallowed (w : World) (src dest : String)
    (br : Option (List String)) (hexec : w.exec = ExecOutcome.toolMissing)
    (hmiss : pathExists w dest = false) :
    aws_cp w src dest br = (Except.ok false, { w with cpCalls := w.cpCalls + 1 }) ∧
    download_file w src dest br =
      (Except.ok dest, { w with cpCalls := w.cpCalls + 1 }) := by
  have h1 := aws_cp_tool_missing w src dest br hexec
  refine ⟨h1, ?_⟩
  unfold download_file
  rw [if_neg (by simp [hmiss]), h1]

/-- The world of a host with no s5cmd installed and an empty filesystem. -/
def wMissing : World :=
  { fs := [], remote := [], exec := ExecOutcome.toolMissing, cpCalls := 0 }

/-- Witness for C4 at concrete inputs. -/
theorem c4_witness :
    aws_cp wMissing "s3://bucket/key" "/tmp/out.grib2" none =
      (Except.ok false, { wMissing with cpCalls := wMissing.cpCalls + 1 }) ∧
    download_file wMissing "s3://bucket/key" "/tmp/out.grib2" none =
      (Except.ok "/tmp/out.grib2", { wMissing with cpCalls := wMissing.cpCalls + 1 }) :=
  c4_transfer_failure_swallowed wMissing "s3://bucket/key" "/tmp/out.grib2" none
    (by decide) (by decide)

/-- C6: for product NBM, region CO, issuance 2024-09-05T12:00:00Z and valid
2024-09-05T13:00:00Z (lead 1 hour), the remote data key relative to the
product base URI is `blend.20240905/12/core/blend.t12z.core.f001.co.grib2`
and the local filename for field RAIN1HR is
`NBM_20240905T120000Z_20240905T130000Z_RAIN1HR.co.grib2`. -/
theorem c6_example_paths :
    Reader.init "NBM" "CO" = Except.ok readerCO ∧
    (readerCO.get_source_path issue0 valid0 none).1 =
      Except.ok (NBM_basedir ++ "/" ++
        "blend.20240905/12/core/blend.t12z.core.f001.co.grib2") ∧
    (readerCO.get_local_filename issue0 valid0 none (some "RAIN1HR")).1 =
      Except.ok "NBM_20240905T120000Z_20240905T130000Z_RAIN1HR.co.grib2" :=
  ⟨by decide, by decide, by decide⟩

/-- C7: requesting a field that is not in the product's field-lookup table
makes `download_field` raise a `ValueError` naming the field (the
ConfigurationError of the spec's taxonomy) before any I/O: the reader and the
world — in particular the filesystem and the collaborator-copy counter — are
returned unchanged. -/
theorem c7_unknown_field_fails_fast (r : Reader) (w : World) (issue valid : Datetime)
    (field dest_dir : String) (h : field_lookup field = none) :
    r.download_field w issue valid field dest_dir =
      (Except.error (PyErr.valueError ("Field " ++ field ++ " not recognized for product NBM")),
       r, w) := by
  unfold Reader.download_field
  simp only [h]

/-- Witness for C7 at concrete inputs. -/
theorem c7_witness :
    readerCO.download_field { fs := [], remote := [], exec := ExecOutcome.ok, cpCalls := 0 }
        issue0 valid0 "SMOKE" "/tmp" =
      (Except.error
        (PyErr.valueError ("Field " ++ "SMOKE" ++ " not recognized for product NBM")),
       readerCO, { fs := [], remote := [], exec := ExecOutcome.ok, cpCalls := 0 }) :=
  c7_unknown_field_fails_fast readerCO
    { fs := [], remote := [], exec := ExecOutcome.ok, cpCalls := 0 }
    issue0 valid0 "SMOKE" "/tmp" (by decide)

/-- C9 (counterexample): `get_local_filename` with an explicit region
argument different from the stored one mutates the Reader: starting from
region `co`, passing region `HI` changes the stored region to `hi` and the
effective file extension to `.hi.grib2`, refuting the claim that every such
call leaves the stored region and effective extension unchanged. -/
theorem c9_counterexample :
    ((readerCO.get_local_filename issue0 valid0 (some "HI") none).2).region ≠
        readerCO.region ∧
    ((readerCO.get_local_filename issue0 valid0 (some "HI") none).2).file_ext ≠
        readerCO.file_ext := by decide

/-- C9 (amended): remote-key and local-filename computations with no explicit
region argument are side-effect-free on the Reader — the returned reader is
the input reader — and their results are deterministic functions of the
reader state and the arguments. -/
theorem c9_amended (r : Reader) (issue valid : Datetime) (field : Option String) :
    (r.get_local_filename issue valid none field).2 = r ∧
    (r.get_source_path issue valid none).2 = r ∧
    (r.get_local_filename issue valid none field).1 =
      Except.ok (local_filename_str r.product_name r.file_ext issue valid field) ∧
    (r.get_source_path issue valid none).1 =
      Except.ok (build_path r.pb_file_ext issue valid) :=
  ⟨rfl, rfl, rfl, rfl⟩

/-- C10: `_download_index_file` always restores the Reader's `_file_ext` and
the path builder's `file_ext` to their pre-call values, whether the inner
download returns normally or raises (the restore sits in a `finally` block):
the reader component of the result carries the original extensions in every
case. -/
theorem c10_index_download_restores_extensions (r : Reader) (w : World)
    (issue valid : Datetime) (dest_dir : String) :
    ((r.download_index_file w issue valid dest_dir).2.1).file_ext = r.file_ext ∧
    ((r.download_index_file w issue valid dest_dir).2.1).pb_file_ext = r.pb_file_ext := by
  unfold Reader.download_index_file
  simp only [Reader.get_local_filename, Reader.get_source_path]
  rcases hdf : download_file w (build_path (r.pb_file_ext ++ ".idx") issue valid)
      (os_path_join dest_dir (local_filename_str r.product_name (r.file_ext ++ ".idx")
        issue valid none)) none with ⟨res, w'⟩
  cases res with
  | error e => simp [hdf]
  | ok p =>
    by_cases hp : pathExists w' p <;> simp [hdf, hp]

/-- C8: when the index file was fetched and read successfully but the
record-matching loop completes without a match, `download_field` raises the
`RuntimeError` (the NotFoundError of the spec's taxonomy) whose message names
both the field and the index file path, and the world is exactly the one left
by the index-file stage — the final ranged data fetch is never attempted and
no further collaborator copy occurs. -/
theorem c8_no_matching_record_not_found (r r1 : Reader) (w w1 : World)
    (issue valid : Datetime) (field dest_dir p content : String) (fa : FieldCriteria)
    (hfa : field_lookup field = some fa)
    (hidx : r.download_index_file w issue valid dest_dir = (Except.ok (some p), r1, w1))
    (hread : fsRead w1.fs p = some content)
    (hscan : byterange_loop field (readlines content) = Except.ok none) :
    r.download_field w issue valid field dest_dir =
      (Except.error
        (PyErr.runtimeError ("Cannot find field " ++ field ++ " in index file at " ++ p)),
       r1, w1) := by
  unfold Reader.download_field
  simp only [hfa, hidx]
  unfold get_byterange_from_index
  simp only [hread, hscan]

/-- An index file whose single record is for a different variable (`TMP`),
so that no record matches field VISIBILITY. -/
def w8 : World :=
  { fs := [("/tmp/NBM_20240905T120000Z_20240905T130000Z.co.grib2.idx",
            "1:0:d=2024090512:TMP:2 m above ground:1 hour fcst:\n")],
    remote := [], exec := ExecOutcome.ok, cpCalls := 0 }

/-- Witness for C8 at concrete inputs. -/
theorem c8_witness :
    readerCO.download_field w8 issue0 valid0 "VISIBILITY" "/tmp" =
      (Except.error
        (PyErr.runtimeError ("Cannot find field " ++ "VISIBILITY" ++ " in index file at " ++
          "/tmp/NBM_20240905T120000Z_20240905T130000Z.co.grib2.idx")),
       readerCO, w8) :=
  c8_no_matching_record_not_found readerCO readerCO w8 w8 issue0 valid0 "VISIBILITY" "/tmp"
    "/tmp/NBM_20240905T120000Z_20240905T130000Z.co.grib2.idx"
    "1:0:d=2024090512:TMP:2 m above ground:1 hour fcst:\n"
    { abbrevName := "VIS" } (by decide) (by decide) (by decide) (by decide)

/-- C5: a fetch whose destination already exists returns that path at once
with the world unchanged (zero collaborator copies); consequently, after a
`download_field` run that succeeds and leaves its result path present on the
filesystem, repeating the call with identical arguments returns the same
path, the same reader and the same world — in particular the second run
triggers no collaborator copy invocation. -/
theorem c5_cache_hit_and_idempotent
    (w : World) (src dest : String) (br : Option (List String))
    (r rOut : Reader) (w0 wOut : World) (issue valid : Datetime)
    (field dest_dir p : String)
    (hcache : pathExists w dest = true)
    (hrun : r.download_field w0 issue valid field dest_dir = (Except.ok p, rOut, wOut))
    (hpresent : pathExists wOut p = true) :
    download_file w src dest br = (Except.ok dest, w) ∧
    rOut.download_field wOut issue valid field dest_dir = (Except.ok p, rOut, wOut) := by
  refine ⟨download_file_cached w src dest br hcache, ?_⟩
  unfold Reader.download_field at hrun
  cases hfl : field_lookup field with
  | none => simp [hfl] at hrun
  | some fa =>
    simp only [hfl] at hrun
    rcases hidx : r.download_index_file w0 issue valid dest_dir with ⟨res0, rA, wA⟩
    cases res0 with
    | error e => simp [hidx] at hrun
    | ok oip =>
      cases oip with
      | none => simp [hidx] at hrun
      | some ip =>
        obtain ⟨hip, hrA, hexA, -⟩ := download_index_ok_some _ _ _ _ _ _ _ _ hidx
        subst hip
        have hrA2 := hrA.symm
        subst hrA2
        simp only [hidx] at hrun
        unfold get_byterange_from_index at hrun
        rcases hread : fsRead wA.fs (idx_dest_path r issue valid dest_dir) with _ | content
        · simp [hread] at hrun
        · simp only [hread] at hrun
          rcases hscan : byterange_loop field (readlines content) with e | obr
          · simp [hscan] at hrun
          · cases obr with
            | none => simp [hscan] at hrun
            | some brv =>
              simp only [hscan] at hrun
              by_cases hbe : brv = []
              · simp [hbe] at hrun
              · simp only [if_neg hbe] at hrun
                simp only [Reader.get_source_path, Reader.get_local_filename] at hrun
                rcases hdl : download_file wA (build_path r.pb_file_ext issue valid)
                    (os_path_join dest_dir (local_filename_str r.product_name r.file_ext
                      issue valid (some field))) (some brv) with ⟨resd, wB⟩
                cases resd with
                | error e => simp [hdl] at hrun
                | ok q =>
                  simp only [hdl, Prod.mk.injEq, Except.ok.injEq] at hrun
                  obtain ⟨hqp, hrOut, hwOut⟩ := hrun
                  obtain ⟨hqd, hfsB⟩ := download_file_ok_fs _ _ _ _ _ _ hdl
                  subst hqp
                  subst hrOut
                  subst hwOut
                  subst hqd
                  -- facts for the second run
                  have hidxP1 : pathExists wB (idx_dest_path r issue valid dest_dir) = true := by
                    rcases hfsB with hfs | ⟨_, z, hcons⟩
                    · unfold pathExists at hexA ⊢
                      rw [hfs]
                      exact hexA
                    · exact pathExists_cons wB wA.fs _ z _ hcons hexA
                  have hread1 : fsRead wB.fs (idx_dest_path r issue valid dest_dir) =
                      some content := by
                    rcases hfsB with hfs | ⟨hmissA, z, hcons⟩
                    · rw [hfs]
                      exact hread
                    · have hne : os_path_join dest_dir (local_filename_str r.product_name
                          r.file_ext issue valid (some field)) ≠
                          idx_dest_path r issue valid dest_dir := by
                        intro he
                        rw [he] at hmissA
                        simp [hexA] at hmissA
                      rw [hcons, fsRead_cons_ne _ _ _ _ hne]
                      exact hread
                  -- assemble the second run
                  unfold Reader.download_field
                  simp only [hfl]
                  simp only [download_index_cached r wB issue valid dest_dir hidxP1]
                  unfold get_byterange_from_index
                  simp only [hread1, hscan]
                  simp only [if_neg hbe]
                  simp only [Reader.get_source_path, Reader.get_local_filename]
                  rw [download_file_cached wB (build_path r.pb_file_ext issue valid)
                    (os_path_join dest_dir (local_filename_str r.product_name r.file_ext
                      issue valid (some field))) (some brv) hpresent]

/-- Index file content whose single (last) record matches field VISIBILITY. -/
def idxContent0 : String := "1:500:d=2024090512:VIS:surface:1 hour fcst:"

/-- The local index path computed for `readerCO`, `issue0`, `valid0`, `/tmp`. -/
def idxPath0 : String := "/tmp/NBM_20240905T120000Z_20240905T130000Z.co.grib2.idx"

/-- The local data path for field VISIBILITY in the same request. -/
def dataPath0 : String := "/tmp/NBM_20240905T120000Z_20240905T130000Z_VISIBILITY.co.grib2"

/-- Pre-state of the first run: index file already cached, data file absent. -/
def w0c : World :=
  { fs := [(idxPath0, idxContent0)], remote := [], exec := ExecOutcome.ok, cpCalls := 0 }

/-- Post-state of the first run: the data file was copied (one collaborator
copy), the index file untouched. -/
def w1c : World :=
  { fs := [(dataPath0, ""), (idxPath0, idxContent0)], remote := [],
    exec := ExecOutcome.ok, cpCalls := 1 }

/-- A world already holding a generic destination file. -/
def wCache : World :=
  { fs := [("/tmp/file.grib2", "x")], remote := [], exec := ExecOutcome.ok, cpCalls := 0 }

/-- Witness for C5 at concrete inputs: the cache-hit fetch, and the second
`download_field` run after a successful first run. -/
theorem c5_witness :
    download_file wCache "s3://src" "/tmp/file.grib2" none =
      (Except.ok "/tmp/file.grib2", wCache) ∧
    readerCO.download_field w1c issue0 valid0 "VISIBILITY" "/tmp" =
      (Except.ok dataPath0, readerCO, w1c) :=
  c5_cache_hit_and_idempotent wCache "s3://src" "/tmp/file.grib2" none
    readerCO readerCO w0c w1c issue0 valid0 "VISIBILITY" "/tmp" dataPath0
    (by decide) (by decide) (by decide)
